import Mathlib

/-!
Shallow embedding of `src/lambdas/disaster-recovery/productDynamoDB.py`:
an AWS Lambda handler doing CRUD on a DynamoDB "Product" table plus a
scheduled backup.  The DynamoDB table is modelled as a list of items (scan
order = list order); every facade operation returns its result together
with the resulting store and the list of store calls it performed, so that
"no mutation happened" and "exactly these calls were made" are provable.
Python exceptions are modelled with `Except PyErr`; the top-level
`try/except` of `lambda_handler` becomes a `match` on that `Except`.
DynamoDB `Decimal` values are modelled as rationals (`ℚ`); Python
`Decimal.__mod__` keeps the sign of the dividend, which `decMod1` mirrors.
-/

/-- A JSON value, the model of the parsed payloads (`json.loads`) and of the
response bodies (`json.dumps` arguments) used by the Python code. -/
inductive JVal where
  | jnull : JVal
  | jbool : Bool → JVal
  | jint : Int → JVal
  | jfloat : ℚ → JVal
  | jstr : String → JVal
  | jarr : List JVal → JVal
  | jobj : List (String × JVal) → JVal

/-- The Python exceptions the handler can see: `jsonschema.ValidationError`,
`KeyError` (missing dict key), `TypeError` (subscripting a non-dict), and
`botocore.exceptions.ClientError` (DynamoDB errors such as
`ConditionalCheckFailedException`). -/
inductive PyErr where
  | validationError : String → PyErr
  | keyError : String → PyErr
  | typeError : String → PyErr
  | clientError : String → PyErr
deriving Repr, DecidableEq

/-- Model of Python `str(e)`.  For `KeyError` Python prints the repr of the
key; for the others the message (for `jsonschema.ValidationError`, `str`
prints a verbose block whose content is the message — we keep the message). -/
def strErr : PyErr → String
  | .validationError m => m
  | .keyError k => "'" ++ k ++ "'"
  | .typeError m => m
  | .clientError m => m

/-- Whether an exception is a `jsonschema.ValidationError`. -/
def PyErr.isValidation : PyErr → Bool
  | .validationError _ => true
  | _ => false

/-- A stored DynamoDB item of the Product table, as written by
`add_product`: key `product_id` plus the two text fields and the two
`Decimal` accumulators. -/
structure Item where
  product_id : String
  product_category : String
  product_title : String
  sum_rating : ℚ
  count_rating : ℚ
deriving Repr, DecidableEq

/-- The DynamoDB table: a flat keyed collection; list order models the
store-native scan order. -/
abbrev Store := List Item

/-- One call made against the external store (DynamoDB), recorded so that
theorems can speak about which calls an invocation performed. -/
inductive DBCall where
  | scan : Nat → Option String → DBCall
  | getItem : String → DBCall
  | putItem : Item → DBCall
  | updateItem : String → String → String → DBCall
  | deleteItem : String → DBCall
  | createBackup : String → String → DBCall
deriving Repr, DecidableEq

/-- `productTable.get_item(Key={'product_id': pid})`: the item with that
key, if present. -/
def dynamo_get_item (s : Store) (pid : String) : Option Item :=
  s.find? (fun it => it.product_id == pid)

/-- `productTable.put_item(Item=...)`: unconditional put — overwrites the
item with the same key if one exists, otherwise adds the item. -/
def dynamo_put_item (s : Store) (it : Item) : Store :=
  if s.any (fun j => j.product_id == it.product_id) then
    s.map (fun j => if j.product_id == it.product_id then it else j)
  else
    s ++ [it]

/-- The `ClientError` message DynamoDB produces when a
`ConditionExpression` fails. -/
def condFailedMsg : String :=
  "An error occurred (ConditionalCheckFailedException) when calling the UpdateItem operation: The conditional request failed"

/-- `productTable.update_item(..., ConditionExpression='attribute_exists(product_id)')`:
replaces `product_category`/`product_title` of the item with key `pid`;
fails with `ConditionalCheckFailedException` when no such item exists. -/
def dynamo_update_item (s : Store) (pid cat title : String) :
    Except PyErr Store :=
  if s.any (fun it => it.product_id == pid) then
    .ok (s.map (fun it =>
      if it.product_id == pid then
        { it with product_category := cat, product_title := title }
      else it))
  else
    .error (.clientError condFailedMsg)

/-- `productTable.delete_item(Key=...)`: unconditional delete — removes the
item with key `pid` if present; deleting an absent key is not an error. -/
def dynamo_delete_item (s : Store) (pid : String) : Store :=
  s.filter (fun it => it.product_id != pid)

/-- Truncation of a rational toward zero, the semantics of Python
`int(Decimal(...))`. -/
def ratTrunc (q : ℚ) : Int :=
  if 0 ≤ q then ⌊q⌋ else ⌈q⌉

/-- Python `Decimal.__mod__` with divisor 1: the remainder of truncating
division, whose sign is the sign of the dividend (so `Decimal('-2.5') % 1`
is `-0.5`, not `0.5`). -/
def decMod1 (q : ℚ) : ℚ :=
  q - (ratTrunc q : ℚ)

/-- `DecimalEncoder.default` on a `Decimal` `o`: `float(o)` when
`o % 1 > 0`, else `int(o)`. -/
def decimalEncoderDefault (o : ℚ) : JVal :=
  if 0 < decMod1 o then .jfloat o else .jint (ratTrunc o)

/-- Serialization of a stored item with `json.dumps(..., cls=DecimalEncoder)`:
the two `Decimal` accumulators go through `DecimalEncoder.default`. -/
def itemToJson (it : Item) : JVal :=
  .jobj [("product_id", .jstr it.product_id),
         ("product_category", .jstr it.product_category),
         ("product_title", .jstr it.product_title),
         ("sum_rating", decimalEncoderDefault it.sum_rating),
         ("count_rating", decimalEncoderDefault it.count_rating)]

/-- Lookup of a key in a JSON object's key/value list — the model of Python
dict lookup (dict keys are unique, so first match is the match). -/
def lookupKey (kvs : List (String × JVal)) (k : String) : Option JVal :=
  (kvs.find? (fun kv => kv.fst == k)).map (fun kv => kv.snd)

/-- Python `d[k]`: the value when `d` is a dict containing `k`; `KeyError`
when the key is missing; `TypeError` when `d` is not a dict. -/
def dictGet (v : JVal) (k : String) : Except PyErr JVal :=
  match v with
  | .jobj kvs =>
    match lookupKey kvs k with
    | some w => .ok w
    | none => .error (.keyError k)
  | _ => .error (.typeError "value is not subscriptable by string keys")

/-- Whether a JSON value is of jsonschema type "string". -/
def isStrVal : JVal → Bool
  | .jstr _ => true
  | _ => false

/-- Python repr of a JSON value, used in jsonschema error messages. -/
def jrepr : JVal → String
  | .jnull => "None"
  | .jbool b => if b then "True" else "False"
  | .jint n => toString n
  | .jfloat q => toString q
  | .jstr s => "'" ++ s ++ "'"
  | .jarr _ => "<list>"
  | .jobj _ => "<dict>"

/-- The `properties` keyword of the schema: for each declared property, a
present value must be of type string; first offender (in the declaration
order of the schema's `properties` dict) yields the error. -/
def checkProps (kvs : List (String × JVal)) : List String → Option PyErr
  | [] => none
  | p :: rest =>
    match lookupKey kvs p with
    | some v =>
      if isStrVal v then checkProps kvs rest
      else some (.validationError (jrepr v ++ " is not of type 'string'"))
    | none => checkProps kvs rest

/-- The `required` keyword of the schema: every listed property must be
present; first missing one (in list order) yields the error. -/
def checkRequired (kvs : List (String × JVal)) : List String → Option PyErr
  | [] => none
  | r :: rest =>
    if (lookupKey kvs r).isSome then checkRequired kvs rest
    else some (.validationError ("'" ++ r ++ "' is a required property"))

/-- `jsonschema.validate(instance, schema)` for the two schemas of the file:
`{"type": "object", "properties": {... all of type string}, "required": [...]}`.
Keywords are validated in the schema's dict order (`type`, `properties`,
`required`), and `validate` raises the first error in that order. -/
def validateJson (props required : List String) (inst : JVal) :
    Except PyErr Unit :=
  match inst with
  | .jobj kvs =>
    match checkProps kvs props with
    | some e => .error e
    | none =>
      match checkRequired kvs required with
      | some e => .error e
      | none => .ok ()
  | v => .error (.validationError (jrepr v ++ " is not of type 'object'"))

/-- `product_schema.properties` in declaration order. -/
def product_schema_props : List String :=
  ["product_category", "product_title"]

/-- `product_schema.required`. -/
def product_schema_required : List String :=
  ["product_category", "product_title"]

/-- `update_product_schema.properties` in declaration order. -/
def update_schema_props : List String :=
  ["product_id", "product_category", "product_title"]

/-- `update_product_schema.required`. -/
def update_schema_required : List String :=
  ["product_id", "product_category", "product_title"]

/-- The result of `get_products`: the Python dict with `Items` and an
optional `LastEvaluatedKey`. -/
structure ScanResult where
  items : List Item
  lastEvaluatedKey : Option String

/-- The items reached by a scan starting (exclusively) after `startKey`, in
store scan order. -/
def scanFrom (s : Store) (startKey : Option String) : List Item :=
  match startKey with
  | none => s
  | some k => (s.dropWhile (fun it => it.product_id != k)).drop 1

/-- `productTable.scan(Limit=limit[, ExclusiveStartKey=startKey])`: up to
`limit` items from the scan position, with `LastEvaluatedKey` present
exactly when items remain beyond the returned page. -/
def dynamo_scan (s : Store) (limit : Nat) (startKey : Option String) :
    ScanResult :=
  let rest := scanFrom s startKey
  if rest.length ≤ limit then
    { items := rest.take limit, lastEvaluatedKey := none }
  else
    { items := rest.take limit,
      lastEvaluatedKey := (rest.take limit).getLast?.map (fun it => it.product_id) }

/-- `get_products(limit=100, lastEvaluatedKey=None)`: one scan call; the
result dict carries `LastEvaluatedKey` (when present) and `Items`.  The
Python defaults are `limit=100` and `lastEvaluatedKey=None`; callers using
the defaults appear here as `get_products s 100 none`. -/
def get_products (s : Store) (limit : Nat) (lastEvaluatedKey : Option String) :
    ScanResult × List DBCall :=
  (dynamo_scan s limit lastEvaluatedKey, [.scan limit lastEvaluatedKey])

/-- `get_product(productId)`: one `get_item` call; returns
`response['Item']`, so a missing item surfaces as `KeyError('Item')`. -/
def get_product (s : Store) (productId : String) :
    Except PyErr Item × List DBCall :=
  match dynamo_get_item s productId with
  | some it => (.ok it, [.getItem productId])
  | none => (.error (.keyError "Item"), [.getItem productId])

/-- `add_product(productDetail)`: validates against `product_schema`
(re-raising the `ValidationError`), then puts a fresh item whose
`product_id` is `str(uuid.uuid4())` — modelled by the `uniqueID` argument —
and whose accumulators are `Decimal(0)`; returns the new id.  Result:
(return value or exception, resulting store, store calls made). -/
def add_product (s : Store) (uniqueID : String) (productDetail : JVal) :
    Except PyErr String × Store × List DBCall :=
  match validateJson product_schema_props product_schema_required productDetail with
  | .error e => (.error e, s, [])
  | .ok _ =>
    match dictGet productDetail "product_category",
          dictGet productDetail "product_title" with
    | .ok (.jstr cat), .ok (.jstr title) =>
      let it : Item :=
        { product_id := uniqueID, product_category := cat,
          product_title := title, sum_rating := 0, count_rating := 0 }
      (.ok uniqueID, dynamo_put_item s it, [.putItem it])
    | _, _ =>
      -- unreachable after successful validation: both fields are strings
      (.error (.typeError "unreachable"), s, [])

/-- `update_product(productDetail)`: the logging f-string reads
`productDetail["product_id"]` BEFORE validation (so a missing id raises
`KeyError`, not `ValidationError`); then validates against
`update_product_schema`, then performs the conditional `update_item`.
Returns the id on success. -/
def update_product (s : Store) (productDetail : JVal) :
    Except PyErr String × Store × List DBCall :=
  match dictGet productDetail "product_id" with
  | .error e => (.error e, s, [])
  | .ok _ =>
    match validateJson update_schema_props update_schema_required productDetail with
    | .error e => (.error e, s, [])
    | .ok _ =>
      match dictGet productDetail "product_id",
            dictGet productDetail "product_category",
            dictGet productDetail "product_title" with
      | .ok (.jstr pid), .ok (.jstr cat), .ok (.jstr title) =>
        (match dynamo_update_item s pid cat title with
         | .ok s2 => (.ok pid, s2, [.updateItem pid cat title])
         | .error e => (.error e, s, [.updateItem pid cat title]))
      | _, _, _ =>
        -- unreachable after successful validation: all three are strings
        (.error (.typeError "unreachable"), s, [])

/-- `delete_product(productId)`: one unconditional `delete_item` call;
never raises; returns the id. -/
def delete_product (s : Store) (productId : String) :
    String × Store × List DBCall :=
  (productId, dynamo_delete_item s productId, [.deleteItem productId])

/-- A UTC timestamp as `datetime.utcnow()` provides it, to the precision the
code consumes. -/
structure UtcTime where
  year : Nat
  month : Nat
  day : Nat
  hour : Nat
  minute : Nat
  second : Nat

/-- Zero-padding to two digits, as `strftime` does for `%m %d %H %M`. -/
def pad2 (n : Nat) : String :=
  if n < 10 then "0" ++ toString n else toString n

/-- Zero-padding to four digits, as `strftime` does for `%Y`. -/
def pad4 (n : Nat) : String :=
  if n < 10 then "000" ++ toString n
  else if n < 100 then "00" ++ toString n
  else if n < 1000 then "0" ++ toString n
  else toString n

/-- `datetime.utcnow().strftime('%Y%m%d%H%M')`: minute-precision timestamp. -/
def formatYmdHM (t : UtcTime) : String :=
  pad4 t.year ++ pad2 t.month ++ pad2 t.day ++ pad2 t.hour ++ pad2 t.minute

/-- `datetime.isoformat()` of a whole-second timestamp: ISO-8601. -/
def isoFormat (t : UtcTime) : String :=
  pad4 t.year ++ "-" ++ pad2 t.month ++ "-" ++ pad2 t.day ++ "T" ++
    pad2 t.hour ++ ":" ++ pad2 t.minute ++ ":" ++ pad2 t.second

/-- The `BackupDetails` of a successful DynamoDB `create_backup` response:
archive identifier (ARN), name, status, type and creation timestamp. -/
structure RawBackup where
  backupArn : String
  backupName : String
  backupStatus : String
  backupType : String
  backupCreationDateTime : UtcTime

/-- The `backup_details` dict `create_backup` returns: the response fields
with `BackupCreationDateTime` rendered via `.isoformat()`. -/
def backupDetailsToJson (r : RawBackup) : JVal :=
  .jobj [("BackupArn", .jstr r.backupArn),
         ("BackupName", .jstr r.backupName),
         ("BackupStatus", .jstr r.backupStatus),
         ("BackupType", .jstr r.backupType),
         ("BackupCreationDateTime", .jstr (isoFormat r.backupCreationDateTime))]

/-- The external DynamoDB backup endpoint: given `TableName` and
`BackupName` it either returns `BackupDetails` or fails with a
`ClientError` message. -/
def BackupSvc := String → String → Except String RawBackup

/-- `create_backup()`: builds the name
`f"product_backup_{datetime.utcnow().strftime('%Y%m%d%H%M')}"`, makes one
`client.create_backup` call, returns the serializable `backup_details`
dict, and re-raises a `ClientError` without retrying. -/
def create_backup (svc : BackupSvc) (tableName : String) (now : UtcTime) :
    Except PyErr JVal × List DBCall :=
  let backup_name := "product_backup_" ++ formatYmdHM now
  match svc tableName backup_name with
  | .ok r => (.ok (backupDetailsToJson r), [.createBackup tableName backup_name])
  | .error m => (.error (.clientError m), [.createBackup tableName backup_name])

/-- An inbound Lambda event, restricted to the fields the handler reads.
`none` models an absent key (reading it raises `KeyError`); for
`queryStringParameters`, `none` also covers API Gateway's `null` (reading a
key of it raises either way).  `body` holds the already-parsed JSON value
that `json.loads(event['body'])` would produce. -/
structure Event where
  source : Option String
  httpMethod : Option String
  path : Option String
  queryStringParameters : Option (List (String × String))
  body : Option JVal

/-- The response envelope the handler returns: `statusCode`, the body (as
the JSON value handed to `json.dumps`) and the headers dict. -/
structure Response where
  statusCode : Nat
  body : JVal
  headers : List (String × String)

/-- The headers dict every branch of the handler attaches. -/
def ctJson : List (String × String) :=
  [("Content-Type", "application/json")]

/-- The process-wide context of one invocation: the table state, the
`uuid.uuid4()` outcome the next `add_product` will draw, the current UTC
time, the backup endpoint and the configured `TABLE_NAME`. -/
structure HandlerCtx where
  store : Store
  uniqueID : String
  now : UtcTime
  backupSvc : BackupSvc
  tableName : String

/-- The five recognized `(method, path)` routes of the elif chain. -/
def recognizedRoute (m p : String) : Bool :=
  (m == "GET" && p == "/getProducts") ||
  (m == "GET" && p == "/getProduct") ||
  (m == "POST" && p == "/addProduct") ||
  (m == "PUT" && p == "/updateProduct") ||
  (m == "DELETE" && p == "/deleteProduct")

/-- `json.dumps` of the `get_products` result dict: `LastEvaluatedKey`
(a key dict) when present, then `Items`. -/
def scanResultToJson (r : ScanResult) : JVal :=
  .jobj ((match r.lastEvaluatedKey with
          | some k => [("LastEvaluatedKey", JVal.jobj [("product_id", .jstr k)])]
          | none => []) ++
         [("Items", .jarr (r.items.map itemToJson))])

/-- `event['queryStringParameters']['product_id']` as the code performs it:
`KeyError`/`TypeError` when the dict is absent or null, `KeyError` when the
key is missing. -/
def queryParam (event : Event) (k : String) : Except PyErr String :=
  match event.queryStringParameters with
  | none => .error (.keyError "queryStringParameters")
  | some qs =>
    match qs.find? (fun kv => kv.fst == k) with
    | some kv => .ok kv.snd
    | none => .error (.keyError k)

/-- The body of the handler's `try` block for a synchronous (non-scheduled)
event: read `httpMethod` and `path`, walk the elif chain, run the action.
An `.error` outcome is the exception the top-level `except` will catch; the
resulting store and the list of store calls are returned in every case. -/
def tryRoutes (ctx : HandlerCtx) (event : Event) :
    Except PyErr Response × Store × List DBCall :=
  match event.httpMethod with
  | none => (.error (.keyError "httpMethod"), ctx.store, [])
  | some http_method =>
    match event.path with
    | none => (.error (.keyError "path"), ctx.store, [])
    | some path =>
      if http_method == "GET" && path == "/getProducts" then
        let (res, calls) := get_products ctx.store 100 none
        (.ok { statusCode := 200, body := scanResultToJson res,
               headers := ctJson }, ctx.store, calls)
      else if http_method == "GET" && path == "/getProduct" then
        match queryParam event "product_id" with
        | .error e => (.error e, ctx.store, [])
        | .ok product_id =>
          match get_product ctx.store product_id with
          | (.ok item, calls) =>
            (.ok { statusCode := 200, body := itemToJson item,
                   headers := ctJson }, ctx.store, calls)
          | (.error e, calls) => (.error e, ctx.store, calls)
      else if http_method == "POST" && path == "/addProduct" then
        match event.body with
        | none => (.error (.keyError "body"), ctx.store, [])
        | some product_detail =>
          match add_product ctx.store ctx.uniqueID product_detail with
          | (.ok product_id, s2, calls) =>
            (.ok { statusCode := 201,
                   body := .jobj [("product_id", .jstr product_id)],
                   headers := ctJson }, s2, calls)
          | (.error e, s2, calls) => (.error e, s2, calls)
      else if http_method == "PUT" && path == "/updateProduct" then
        match event.body with
        | none => (.error (.keyError "body"), ctx.store, [])
        | some product_detail =>
          match update_product ctx.store product_detail with
          | (.ok _, s2, calls) =>
            (.ok { statusCode := 200,
                   body := .jobj [("message", .jstr "Product updated")],
                   headers := ctJson }, s2, calls)
          | (.error e, s2, calls) => (.error e, s2, calls)
      else if http_method == "DELETE" && path == "/deleteProduct" then
        match queryParam event "product_id" with
        | .error e => (.error e, ctx.store, [])
        | .ok product_id =>
          let (_, s2, calls) := delete_product ctx.store product_id
          (.ok { statusCode := 200,
                 body := .jobj [("message", .jstr "Product deleted")],
                 headers := ctJson }, s2, calls)
      else
        (.ok { statusCode := 400,
               body := .jobj [("message", .jstr "Bad request")],
               headers := ctJson }, ctx.store, [])

/-- `lambda_handler(event, context)`.  A scheduled EventBridge event
(`event['source'] == 'aws.events'`) triggers the backup path with its own
try/except; otherwise the synchronous try block runs and any exception is
caught at the top level and turned into a 500 response carrying `str(e)`.
The function is total: no exception escapes. -/
def lambda_handler (ctx : HandlerCtx) (event : Event) :
    Response × Store × List DBCall :=
  if event.source == some "aws.events" then
    match create_backup ctx.backupSvc ctx.tableName ctx.now with
    | (.ok details, calls) =>
      ({ statusCode := 200,
         body := .jobj [("message", .jstr "Backup created"),
                        ("backup_details", details)],
         headers := ctJson }, ctx.store, calls)
    | (.error e, calls) =>
      ({ statusCode := 500,
         body := .jobj [("error", .jstr (strErr e))],
         headers := ctJson }, ctx.store, calls)
  else
    match tryRoutes ctx event with
    | (.ok resp, s2, calls) => (resp, s2, calls)
    | (.error e, s2, calls) =>
      ({ statusCode := 500,
         body := .jobj [("error", .jstr (strErr e))],
         headers := ctJson }, s2, calls)

/-- A payload (in the schema's sense) violates one of the two schemas of
the file when a declared property is present with a non-string value, or a
required property is missing. -/
def violatesSchema (props required : List String)
    (kvs : List (String × JVal)) : Prop :=
  (∃ p ∈ props, ∃ v, lookupKey kvs p = some v ∧ isStrVal v = false) ∨
  (∃ r ∈ required, lookupKey kvs r = none)

/-- Fixture: a deterministic outcome for the external backup endpoint. -/
def svc0 : BackupSvc := fun _ name =>
  .ok { backupArn := "arn:aws:dynamodb:us-east-1:123456789012:table/Product/backup/015",
        backupName := name, backupStatus := "CREATING", backupType := "USER",
        backupCreationDateTime :=
          { year := 2026, month := 10, day := 12, hour := 9, minute := 30, second := 7 } }

/-- Fixture: a failing outcome for the external backup endpoint. -/
def svcFail : BackupSvc := fun _ _ =>
  .error "An error occurred (TableNotFoundException) when calling the CreateBackup operation"

/-- Fixture: a concrete UTC instant. -/
def time0 : UtcTime :=
  { year := 2026, month := 10, day := 12, hour := 9, minute := 30, second := 7 }

/-- Fixture: a stored item. -/
def item0 : Item :=
  { product_id := "p1", product_category := "computer",
    product_title := "Ergo Mouse", sum_rating := 0, count_rating := 0 }

/-- Fixture: an invocation context over an empty table. -/
def ctx0 : HandlerCtx :=
  { store := [], uniqueID := "3f2504e0-4f89-11d3-9a0c-0305e82c3301",
    now := time0, backupSvc := svc0, tableName := "Product" }

/-- Fixture: an invocation context over a one-item table. -/
def ctx1 : HandlerCtx :=
  { store := [item0], uniqueID := "3f2504e0-4f89-11d3-9a0c-0305e82c3301",
    now := time0, backupSvc := svc0, tableName := "Product" }

/-- Fixture: an invocation context whose backup endpoint fails. -/
def ctxFail : HandlerCtx :=
  { store := [], uniqueID := "3f2504e0-4f89-11d3-9a0c-0305e82c3301",
    now := time0, backupSvc := svcFail, tableName := "Product" }

/-- Fixture: a synchronous request to an unrecognized route. -/
def evUnknown : Event :=
  { source := none, httpMethod := some "GET", path := some "/unknownPath",
    queryStringParameters := none, body := none }

/-- Fixture: `GET /getProducts` carrying (ignored) query parameters. -/
def evGetProducts : Event :=
  { source := none, httpMethod := some "GET", path := some "/getProducts",
    queryStringParameters := some [("limit", "5"), ("startKey", "p9")],
    body := none }

/-- Fixture: `GET /getProduct` for an id the store does not contain. -/
def evGetMissing : Event :=
  { source := none, httpMethod := some "GET", path := some "/getProduct",
    queryStringParameters := some [("product_id", "no-such-id")], body := none }

/-- Fixture: a scheduled EventBridge event. -/
def evScheduled : Event :=
  { source := some "aws.events", httpMethod := none, path := none,
    queryStringParameters := none, body := none }

/-! ## Helper lemmas -/

/-- Every error `checkProps` produces is a `ValidationError`. -/
theorem checkProps_error_isValidation (kvs : List (String × JVal)) :
    ∀ ps e, checkProps kvs ps = some e → ∃ m, e = .validationError m := by
  intro ps
  induction ps with
  | nil => intro e h; simp [checkProps] at h
  | cons p rest ih =>
    intro e h
    unfold checkProps at h
    cases hl : lookupKey kvs p with
    | none => simp only [hl] at h; exact ih e h
    | some v =>
      simp only [hl] at h
      by_cases hs : isStrVal v = true
      · simp only [if_pos hs] at h; exact ih e h
      · simp only [if_neg hs] at h
        exact ⟨_, (Option.some.inj h).symm⟩

/-- Every error `checkRequired` produces is a `ValidationError`. -/
theorem checkRequired_error_isValidation (kvs : List (String × JVal)) :
    ∀ rs e, checkRequired kvs rs = some e → ∃ m, e = .validationError m := by
  intro rs
  induction rs with
  | nil => intro e h; simp [checkRequired] at h
  | cons r rest ih =>
    intro e h
    unfold checkRequired at h
    by_cases hl : (lookupKey kvs r).isSome = true
    · simp only [if_pos hl] at h; exact ih e h
    · simp only [if_neg hl] at h
      exact ⟨_, (Option.some.inj h).symm⟩

/-- Every error `validateJson` produces is a `ValidationError`. -/
theorem validateJson_error_isValidation (props required : List String)
    (inst : JVal) (e : PyErr)
    (h : validateJson props required inst = .error e) :
    ∃ m, e = .validationError m := by
  cases inst with
  | jobj kvs =>
    unfold validateJson at h
    cases hp : checkProps kvs props with
    | some e2 =>
      simp only [hp] at h
      exact (Except.error.inj h) ▸ checkProps_error_isValidation kvs props e2 hp
    | none =>
      simp only [hp] at h
      cases hr : checkRequired kvs required with
      | some e2 =>
        simp only [hr] at h
        exact (Except.error.inj h) ▸ checkRequired_error_isValidation kvs required e2 hr
      | none => simp only [hr] at h; exact absurd h (by simp)
  | jnull => exact ⟨_, (Except.error.inj h).symm⟩
  | jbool b => exact ⟨_, (Except.error.inj h).symm⟩
  | jint n => exact ⟨_, (Except.error.inj h).symm⟩
  | jfloat q => exact ⟨_, (Except.error.inj h).symm⟩
  | jstr t => exact ⟨_, (Except.error.inj h).symm⟩
  | jarr xs => exact ⟨_, (Except.error.inj h).symm⟩

/-- `checkProps` succeeds exactly when every declared property that is
present holds a string. -/
theorem checkProps_none_iff (kvs : List (String × JVal)) :
    ∀ ps, checkProps kvs ps = none ↔
      ∀ p ∈ ps, ∀ v, lookupKey kvs p = some v → isStrVal v = true := by
  intro ps
  induction ps with
  | nil => simp [checkProps]
  | cons p rest ih =>
    unfold checkProps
    cases hl : lookupKey kvs p with
    | none =>
      simp only [ih, List.mem_cons]
      constructor
      · intro h q hq v hv
        rcases hq with rfl | hq
        · rw [hl] at hv; exact absurd hv (by simp)
        · exact h q hq v hv
      · intro h q hq v hv; exact h q (Or.inr hq) v hv
    | some v =>
      by_cases hs : isStrVal v = true
      · simp only [if_pos hs, ih]
        constructor
        · intro h q hq w hw
          rcases List.mem_cons.mp hq with rfl | hq
          · rw [hl] at hw; exact (Option.some.inj hw) ▸ hs
          · exact h q hq w hw
        · intro h q hq w hw; exact h q (List.mem_cons_of_mem _ hq) w hw
      · simp only [if_neg hs]
        constructor
        · intro h; exact absurd h (by simp)
        · intro h
          exact absurd (h p (List.mem_cons_self p rest) v hl) hs

/-- `checkRequired` succeeds exactly when every required property is
present. -/
theorem checkRequired_none_iff (kvs : List (String × JVal)) :
    ∀ rs, checkRequired kvs rs = none ↔
      ∀ r ∈ rs, (lookupKey kvs r).isSome = true := by
  intro rs
  induction rs with
  | nil => simp [checkRequired]
  | cons r rest ih =>
    unfold checkRequired
    by_cases hl : (lookupKey kvs r).isSome = true
    · simp only [if_pos hl, ih]
      constructor
      · intro h q hq
        rcases List.mem_cons.mp hq with rfl | hq
        · exact hl
        · exact h q hq
      · intro h q hq; exact h q (List.mem_cons_of_mem _ hq)
    · simp only [if_neg hl]
      constructor
      · intro h; exact absurd h (by simp)
      · intro h
        exact absurd (h r (List.mem_cons_self r rest)) hl

/-- A schema violation makes `validateJson` fail with a `ValidationError`. -/
theorem validateJson_violation (props required : List String)
    (kvs : List (String × JVal))
    (h : violatesSchema props required kvs) :
    ∃ m, validateJson props required (.jobj kvs) = .error (.validationError m) := by
  have hval : validateJson props required (.jobj kvs) =
      (match checkProps kvs props with
       | some e => Except.error e
       | none =>
         match checkRequired kvs required with
         | some e => Except.error e
         | none => Except.ok ()) := rfl
  rw [hval]
  cases hp : checkProps kvs props with
  | some e =>
    obtain ⟨m, rfl⟩ := checkProps_error_isValidation kvs props e hp
    exact ⟨m, by simp⟩
  | none =>
    cases hr : checkRequired kvs required with
    | some e =>
      obtain ⟨m, rfl⟩ := checkRequired_error_isValidation kvs required e hr
      exact ⟨m, by simp⟩
    | none =>
      exfalso
      rcases h with ⟨p, hp2, v, hv, hns⟩ | ⟨r, hr2, hmiss⟩
      · have := (checkProps_none_iff kvs props).mp hp p hp2 v hv
        rw [hns] at this; exact absurd this (by simp)
      · have := (checkRequired_none_iff kvs required).mp hr r hr2
        rw [hmiss] at this; exact absurd this (by simp)

/-- Reading back the key just written by an unconditional put returns the
item that was put. -/
theorem dynamo_get_item_put (s : Store) (it : Item) :
    dynamo_get_item (dynamo_put_item s it) it.product_id = some it := by
  unfold dynamo_put_item
  by_cases h : s.any (fun j => j.product_id == it.product_id) = true
  · rw [if_pos h]
    induction s with
    | nil => simp at h
    | cons a tl ih =>
      simp only [List.map_cons, dynamo_get_item, List.find?_cons]
      by_cases ha : a.product_id == it.product_id
      · simp only [ha, if_true]
        simp
      · simp only [ha, if_false, Bool.false_eq_true]
        have htl : tl.any (fun j => j.product_id == it.product_id) = true := by
          simp only [List.any_cons, ha, Bool.false_or] at h
          exact h
        simpa [dynamo_get_item] using ih htl
  · rw [if_neg h]
    unfold dynamo_get_item
    rw [List.find?_append]
    have hnone : s.find? (fun j => j.product_id == it.product_id) = none := by
      rw [List.find?_eq_none]
      intro x hx
      intro hcontra
      exact h (List.any_eq_true.mpr ⟨x, hx, hcontra⟩)
    simp [hnone]

/-! ## Claim theorems -/

/-- C1: for every valid create payload (string `product_category` and
`product_title`), `add_product` validates it, writes one item with the
freshly generated id and zeroed `sum_rating`/`count_rating`, and returns
the new id; a subsequent `get_product` on that id returns the record with
the supplied category and title and both accumulators zero. -/
theorem create_then_get_roundtrip (s : Store) (uniqueID cat title : String)
    (kvs : List (String × JVal))
    (hcat : lookupKey kvs "product_category" = some (.jstr cat))
    (htitle : lookupKey kvs "product_title" = some (.jstr title)) :
    (add_product s uniqueID (.jobj kvs)).1 = .ok uniqueID ∧
    (add_product s uniqueID (.jobj kvs)).2.2 =
      [.putItem { product_id := uniqueID, product_category := cat,
                  product_title := title, sum_rating := 0, count_rating := 0 }] ∧
    (get_product (add_product s uniqueID (.jobj kvs)).2.1 uniqueID).1 =
      .ok { product_id := uniqueID, product_category := cat,
            product_title := title, sum_rating := 0, count_rating := 0 } := by
  have hval : validateJson product_schema_props product_schema_required (.jobj kvs) = .ok () := by
    simp [validateJson, product_schema_props, product_schema_required,
          checkProps, checkRequired, hcat, htitle, isStrVal]
  have hadd : add_product s uniqueID (.jobj kvs) =
      (.ok uniqueID,
       dynamo_put_item s { product_id := uniqueID, product_category := cat,
                           product_title := title, sum_rating := 0, count_rating := 0 },
       [.putItem { product_id := uniqueID, product_category := cat,
                   product_title := title, sum_rating := 0, count_rating := 0 }]) := by
    simp [add_product, hval, dictGet, hcat, htitle]
  refine ⟨by rw [hadd], by rw [hadd], ?_⟩
  rw [hadd]
  simp only [get_product]
  have := dynamo_get_item_put s
    { product_id := uniqueID, product_category := cat,
      product_title := title, sum_rating := 0, count_rating := 0 }
  simp only at this
  rw [this]

/-- Witness for C1 at a concrete payload over the empty store. -/
theorem create_then_get_roundtrip_witness :
    lookupKey [("product_category", JVal.jstr "computer"),
               ("product_title", JVal.jstr "Ergo Mouse")] "product_category" =
      some (.jstr "computer") ∧
    lookupKey [("product_category", JVal.jstr "computer"),
               ("product_title", JVal.jstr "Ergo Mouse")] "product_title" =
      some (.jstr "Ergo Mouse") ∧
    ((add_product [] "3f2504e0-4f89-11d3-9a0c-0305e82c3301"
        (.jobj [("product_category", JVal.jstr "computer"),
                ("product_title", JVal.jstr "Ergo Mouse")])).1 =
      .ok "3f2504e0-4f89-11d3-9a0c-0305e82c3301" ∧
     (add_product [] "3f2504e0-4f89-11d3-9a0c-0305e82c3301"
        (.jobj [("product_category", JVal.jstr "computer"),
                ("product_title", JVal.jstr "Ergo Mouse")])).2.2 =
      [.putItem { product_id := "3f2504e0-4f89-11d3-9a0c-0305e82c3301",
                  product_category := "computer", product_title := "Ergo Mouse",
                  sum_rating := 0, count_rating := 0 }] ∧
     (get_product (add_product [] "3f2504e0-4f89-11d3-9a0c-0305e82c3301"
        (.jobj [("product_category", JVal.jstr "computer"),
                ("product_title", JVal.jstr "Ergo Mouse")])).2.1
        "3f2504e0-4f89-11d3-9a0c-0305e82c3301").1 =
      .ok { product_id := "3f2504e0-4f89-11d3-9a0c-0305e82c3301",
            product_category := "computer", product_title := "Ergo Mouse",
            sum_rating := 0, count_rating := 0 }) :=
  ⟨rfl, rfl,
   create_then_get_roundtrip [] "3f2504e0-4f89-11d3-9a0c-0305e82c3301"
     "computer" "Ergo Mouse"
     [("product_category", JVal.jstr "computer"),
      ("product_title", JVal.jstr "Ergo Mouse")] rfl rfl⟩

/-- C2: for every id not present in the store, a valid update payload makes
`update_product` fail with the DynamoDB conditional-check failure, leaves
the store unchanged, and in particular creates no record with that id. -/
theorem update_nonexistent_fails (s : Store) (kvs : List (String × JVal))
    (pid cat title : String)
    (hid : lookupKey kvs "product_id" = some (.jstr pid))
    (hcat : lookupKey kvs "product_category" = some (.jstr cat))
    (htitle : lookupKey kvs "product_title" = some (.jstr title))
    (habs : ∀ it ∈ s, it.product_id ≠ pid) :
    (update_product s (.jobj kvs)).1 = .error (.clientError condFailedMsg) ∧
    (update_product s (.jobj kvs)).2.1 = s ∧
    dynamo_get_item (update_product s (.jobj kvs)).2.1 pid = none := by
  have hany : s.any (fun it => it.product_id == pid) = false := by
    rw [List.any_eq_false]
    intro it hit
    simpa using habs it hit
  have hupd : dynamo_update_item s pid cat title =
      .error (.clientError condFailedMsg) := by
    simp [dynamo_update_item, hany]
  have hval : validateJson update_schema_props update_schema_required (.jobj kvs) =
      .ok () := by
    simp [validateJson, update_schema_props, update_schema_required,
          checkProps, checkRequired, hid, hcat, htitle, isStrVal]
  have h1 : update_product s (.jobj kvs) =
      (.error (.clientError condFailedMsg), s, [.updateItem pid cat title]) := by
    simp [update_product, dictGet, hid, hcat, htitle, hval, hupd]
  refine ⟨by rw [h1], by rw [h1], ?_⟩
  rw [h1]
  simp only [dynamo_get_item]
  rw [List.find?_eq_none]
  intro x hx
  simpa using habs x hx

/-- Witness for C2: updating an id over the empty store fails and the
store stays empty. -/
theorem update_nonexistent_fails_witness :
    lookupKey [("product_id", JVal.jstr "p77"),
               ("product_category", JVal.jstr "computer"),
               ("product_title", JVal.jstr "Ergo Mouse")] "product_id" =
      some (.jstr "p77") ∧
    ((update_product [] (.jobj [("product_id", JVal.jstr "p77"),
               ("product_category", JVal.jstr "computer"),
               ("product_title", JVal.jstr "Ergo Mouse")])).1 =
      .error (.clientError condFailedMsg) ∧
     (update_product [] (.jobj [("product_id", JVal.jstr "p77"),
               ("product_category", JVal.jstr "computer"),
               ("product_title", JVal.jstr "Ergo Mouse")])).2.1 = [] ∧
     dynamo_get_item (update_product [] (.jobj [("product_id", JVal.jstr "p77"),
               ("product_category", JVal.jstr "computer"),
               ("product_title", JVal.jstr "Ergo Mouse")])).2.1 "p77" = none) :=
  ⟨rfl,
   update_nonexistent_fails [] [("product_id", JVal.jstr "p77"),
     ("product_category", JVal.jstr "computer"),
     ("product_title", JVal.jstr "Ergo Mouse")] "p77" "computer" "Ergo Mouse"
     rfl rfl rfl (by simp)⟩

/-- C3 counterexample: an update payload missing `product_id` (but with
string `product_category` and `product_title`) makes `update_product`
raise `KeyError('product_id')` — from the pre-validation logging access —
and NOT a `jsonschema.ValidationError`, contradicting the claim that every
update payload missing a required field signals a `ValidationError`. -/
theorem update_missing_id_raises_keyerror :
    (update_product [] (.jobj [("product_category", JVal.jstr "computer"),
                               ("product_title", JVal.jstr "Ergo Mouse")])).1 =
      .error (.keyError "product_id") ∧
    PyErr.isValidation (.keyError "product_id") = false := ⟨rfl, rfl⟩

/-- C3 amended: a create payload violating the create schema makes
`add_product` raise a `ValidationError` and perform no store call; an
update payload missing `product_id` makes `update_product` raise
`KeyError('product_id')` (the pre-validation logging access) with no store
call; an update payload containing `product_id` but violating the update
schema makes `update_product` raise a `ValidationError` with no store
call.  In every case the store is unchanged. -/
theorem invalid_payload_raises_without_mutation (s : Store) (uniqueID : String)
    (kvs : List (String × JVal)) :
    (violatesSchema product_schema_props product_schema_required kvs →
      ∃ m, (add_product s uniqueID (.jobj kvs)).1 = .error (.validationError m) ∧
           (add_product s uniqueID (.jobj kvs)).2.1 = s ∧
           (add_product s uniqueID (.jobj kvs)).2.2 = []) ∧
    (lookupKey kvs "product_id" = none →
      (update_product s (.jobj kvs)).1 = .error (.keyError "product_id") ∧
      (update_product s (.jobj kvs)).2.1 = s ∧
      (update_product s (.jobj kvs)).2.2 = []) ∧
    (∀ v, lookupKey kvs "product_id" = some v →
      violatesSchema update_schema_props update_schema_required kvs →
      ∃ m, (update_product s (.jobj kvs)).1 = .error (.validationError m) ∧
           (update_product s (.jobj kvs)).2.1 = s ∧
           (update_product s (.jobj kvs)).2.2 = []) := by
  refine ⟨?_, ?_, ?_⟩
  · intro h
    obtain ⟨m, hv⟩ := validateJson_violation _ _ _ h
    exact ⟨m, by simp [add_product, hv]⟩
  · intro h
    refine ⟨?_, ?_, ?_⟩ <;> simp [update_product, dictGet, h]
  · intro v hv hviol
    obtain ⟨m, hval⟩ := validateJson_violation _ _ _ hviol
    exact ⟨m, by simp [update_product, dictGet, hv, hval]⟩

/-- Witness for amended C3: a create payload missing `product_title`
raises a `ValidationError`; the same payload as an update raises
`KeyError('product_id')`; an update payload with `product_id` but missing
`product_title` raises a `ValidationError`.  No call touches the store. -/
theorem invalid_payload_raises_without_mutation_witness :
    (∃ m, (add_product [] "id1" (.jobj [("product_category", JVal.jstr "computer")])).1 =
            .error (.validationError m) ∧
          (add_product [] "id1" (.jobj [("product_category", JVal.jstr "computer")])).2.1 = [] ∧
          (add_product [] "id1" (.jobj [("product_category", JVal.jstr "computer")])).2.2 = []) ∧
    ((update_product [] (.jobj [("product_category", JVal.jstr "computer")])).1 =
       .error (.keyError "product_id") ∧
     (update_product [] (.jobj [("product_category", JVal.jstr "computer")])).2.1 = [] ∧
     (update_product [] (.jobj [("product_category", JVal.jstr "computer")])).2.2 = []) ∧
    (∃ m, (update_product [] (.jobj [("product_id", JVal.jstr "p1"),
                                     ("product_category", JVal.jstr "computer")])).1 =
            .error (.validationError m) ∧
          (update_product [] (.jobj [("product_id", JVal.jstr "p1"),
                                     ("product_category", JVal.jstr "computer")])).2.1 = [] ∧
          (update_product [] (.jobj [("product_id", JVal.jstr "p1"),
                                     ("product_category", JVal.jstr "computer")])).2.2 = []) :=
  ⟨(invalid_payload_raises_without_mutation [] "id1"
      [("product_category", JVal.jstr "computer")]).1
     (Or.inr ⟨"product_title", by simp [product_schema_required], rfl⟩),
   (invalid_payload_raises_without_mutation [] "id1"
      [("product_category", JVal.jstr "computer")]).2.1 rfl,
   (invalid_payload_raises_without_mutation [] "id1"
      [("product_id", JVal.jstr "p1"),
       ("product_category", JVal.jstr "computer")]).2.2 (JVal.jstr "p1") rfl
     (Or.inr ⟨"product_title", by simp [update_schema_required], rfl⟩)⟩

/-- C7: `delete_product` is idempotent.  Deleting an id leaves no item with
that id, the second delete returns normally (the model of `delete_item`
without a condition never raises) with the same id, and the store after
the second delete equals the store after the first. -/
theorem delete_product_idempotent (s : Store) (pid : String) :
    (delete_product (delete_product s pid).2.1 pid).2.1 =
      (delete_product s pid).2.1 ∧
    (delete_product (delete_product s pid).2.1 pid).1 = pid ∧
    dynamo_get_item (delete_product s pid).2.1 pid = none := by
  refine ⟨?_, rfl, ?_⟩
  · simp only [delete_product, dynamo_delete_item]
    rw [List.filter_filter]
    simp
  · simp only [delete_product, dynamo_delete_item, dynamo_get_item]
    rw [List.find?_eq_none]
    intro x hx h
    have := List.of_mem_filter hx
    simp at this h
    exact this (by simpa using h)

/-- C6 counterexample: `Decimal('-2.5')` has a fractional component, yet
`DecimalEncoder.default` emits the integer `-2`: Python's `Decimal`
remainder keeps the dividend's sign, so `-2.5 % 1 = -0.5` fails the
`o % 1 > 0` test and the `int(o)` branch truncates.  This contradicts the
claim that every `Decimal` with a fractional component — including
negative values — serializes as a floating-point number. -/
theorem negative_fractional_decimal_encodes_as_int :
    decMod1 (-((5:ℚ)/2)) ≠ 0 ∧
    decimalEncoderDefault (-((5:ℚ)/2)) = .jint (-2) ∧
    decimalEncoderDefault (-((5:ℚ)/2)) ≠ .jfloat (-((5:ℚ)/2)) := by
  have hceil : ⌈-((5:ℚ)/2)⌉ = -2 := by rw [Int.ceil_neg]; norm_num
  have henc : decimalEncoderDefault (-((5:ℚ)/2)) = .jint (-2) := by
    simp only [decimalEncoderDefault, decMod1, ratTrunc]
    rw [if_neg (by norm_num : ¬(0:ℚ) ≤ -((5:ℚ)/2)), hceil]
    norm_num
  refine ⟨?_, henc, ?_⟩
  · simp only [decMod1, ratTrunc]
    rw [if_neg (by norm_num : ¬(0:ℚ) ≤ -((5:ℚ)/2)), hceil]
    norm_num
  · rw [henc]; simp

/-- C6 amended: a `Decimal` with no fractional component serializes as the
integer it denotes; a NONNEGATIVE `Decimal` with a fractional component
serializes as a floating-point number; a NEGATIVE `Decimal` always takes
the integer branch (truncating toward zero when a fractional component is
present); and no `Decimal` ever serializes as a string. -/
theorem decimal_encoder_branches (q : ℚ) :
    (decMod1 q = 0 → decimalEncoderDefault q = .jint (ratTrunc q)) ∧
    (0 ≤ q → decMod1 q ≠ 0 → decimalEncoderDefault q = .jfloat q) ∧
    (q < 0 → decimalEncoderDefault q = .jint (ratTrunc q)) ∧
    (∀ t, decimalEncoderDefault q ≠ .jstr t) := by
  refine ⟨?_, ?_, ?_, ?_⟩
  · intro h
    simp [decimalEncoderDefault, h]
  · intro h0 hne
    have ht : ratTrunc q = ⌊q⌋ := if_pos h0
    have hfl : (⌊q⌋ : ℚ) ≤ q := Int.floor_le q
    have h1 : 0 ≤ decMod1 q := by
      simp only [decMod1, ht]
      linarith
    have h2 : 0 < decMod1 q := lt_of_le_of_ne h1 (Ne.symm hne)
    simp [decimalEncoderDefault, h2]
  · intro h
    have ht : ratTrunc q = ⌈q⌉ := if_neg (not_le.mpr h)
    have hcl : q ≤ (⌈q⌉ : ℚ) := Int.le_ceil q
    have h1 : ¬0 < decMod1 q := by
      simp only [decMod1, ht, not_lt]
      linarith
    simp [decimalEncoderDefault, h1]
  · intro t
    unfold decimalEncoderDefault
    split <;> simp

/-- Witness for amended C6: `2.5` serializes as the float `2.5`, `3`
serializes as the integer `3`, and `-2.5` serializes as an integer. -/
theorem decimal_encoder_branches_witness :
    decMod1 ((5:ℚ)/2) ≠ 0 ∧
    decimalEncoderDefault ((5:ℚ)/2) = .jfloat ((5:ℚ)/2) ∧
    decMod1 (3:ℚ) = 0 ∧
    decimalEncoderDefault (3:ℚ) = .jint (ratTrunc 3) ∧
    decimalEncoderDefault (-((5:ℚ)/2)) = .jint (ratTrunc (-((5:ℚ)/2))) :=
  ⟨by norm_num [decMod1, ratTrunc],
   (decimal_encoder_branches ((5:ℚ)/2)).2.1 (by norm_num)
     (by norm_num [decMod1, ratTrunc]),
   by norm_num [decMod1, ratTrunc],
   (decimal_encoder_branches (3:ℚ)).1 (by norm_num [decMod1, ratTrunc]),
   (decimal_encoder_branches (-((5:ℚ)/2))).2.2.1 (by norm_num)⟩


/-- Any response the routing block returns without raising carries the
JSON content-type header, and its status is 200, 201, or — exactly in the
unrecognized-route case — 400 with the Bad request body. -/
theorem tryRoutes_ok_cases (ctx : HandlerCtx) (event : Event) (r : Response)
    (s2 : Store) (calls : List DBCall)
    (h : tryRoutes ctx event = (.ok r, s2, calls)) :
    r.headers = ctJson ∧
    (r.statusCode = 200 ∨ r.statusCode = 201 ∨
     (r.statusCode = 400 ∧
      r.body = .jobj [("message", .jstr "Bad request")] ∧
      ∃ m p, event.httpMethod = some m ∧ event.path = some p ∧
        recognizedRoute m p = false)) := by
  cases hm : event.httpMethod with
  | none => simp [tryRoutes, hm] at h
  | some m =>
    cases hp : event.path with
    | none => simp [tryRoutes, hm, hp] at h
    | some p =>
      simp only [tryRoutes, hm, hp] at h
      by_cases h1 : (m == "GET" && p == "/getProducts") = true
      · rw [if_pos h1] at h
        have hr := Except.ok.inj (congrArg Prod.fst h)
        rw [← hr]; exact ⟨rfl, Or.inl rfl⟩
      · rw [if_neg h1] at h
        by_cases h2 : (m == "GET" && p == "/getProduct") = true
        · rw [if_pos h2] at h
          cases hq : queryParam event "product_id" with
          | error e => simp [hq] at h
          | ok pid =>
            simp only [hq] at h
            rcases hg : get_product ctx.store pid with ⟨res, calls3⟩
            simp only [hg] at h
            cases res with
            | error e => simp at h
            | ok item =>
              have hr := Except.ok.inj (congrArg Prod.fst h)
              rw [← hr]; exact ⟨rfl, Or.inl rfl⟩
        · rw [if_neg h2] at h
          by_cases h3 : (m == "POST" && p == "/addProduct") = true
          · rw [if_pos h3] at h
            cases hb : event.body with
            | none => simp [hb] at h
            | some product_detail =>
              simp only [hb] at h
              rcases ha : add_product ctx.store ctx.uniqueID product_detail with ⟨res, s3, calls3⟩
              simp only [ha] at h
              cases res with
              | error e => simp at h
              | ok pid =>
                have hr := Except.ok.inj (congrArg Prod.fst h)
                rw [← hr]; exact ⟨rfl, Or.inr (Or.inl rfl)⟩
          · rw [if_neg h3] at h
            by_cases h4 : (m == "PUT" && p == "/updateProduct") = true
            · rw [if_pos h4] at h
              cases hb : event.body with
              | none => simp [hb] at h
              | some product_detail =>
                simp only [hb] at h
                rcases hu : update_product ctx.store product_detail with ⟨res, s3, calls3⟩
                simp only [hu] at h
                cases res with
                | error e => simp at h
                | ok pid =>
                  have hr := Except.ok.inj (congrArg Prod.fst h)
                  rw [← hr]; exact ⟨rfl, Or.inl rfl⟩
            · rw [if_neg h4] at h
              by_cases h5 : (m == "DELETE" && p == "/deleteProduct") = true
              · rw [if_pos h5] at h
                cases hq : queryParam event "product_id" with
                | error e => simp [hq] at h
                | ok pid =>
                  simp only [hq] at h
                  have hr := Except.ok.inj (congrArg Prod.fst h)
                  rw [← hr]; exact ⟨rfl, Or.inl rfl⟩
              · rw [if_neg h5] at h
                have hr := Except.ok.inj (congrArg Prod.fst h)
                have hrec : recognizedRoute m p = false := by
                  simp only [Bool.not_eq_true] at h1 h2 h3 h4 h5
                  simp [recognizedRoute, h1, h2, h3, h4, h5]
                rw [← hr]
                exact ⟨rfl, Or.inr (Or.inr ⟨rfl, rfl, m, p, rfl, rfl, hrec⟩)⟩

/-- C4: for every synchronous (non-scheduled) event whose routed action
raises an exception `e` — of any kind — the handler catches it and returns
statusCode 500 with a JSON body carrying `str(e)`; the response shape is
the same for every error kind (no exception escapes: `lambda_handler` is
total by construction). -/
theorem handler_maps_exceptions_to_500 (ctx : HandlerCtx) (event : Event)
    (e : PyErr)
    (hs : event.source ≠ some "aws.events")
    (he : (tryRoutes ctx event).1 = .error e) :
    (lambda_handler ctx event).1 =
      { statusCode := 500, body := .jobj [("error", .jstr (strErr e))],
        headers := ctJson } := by
  have hbe : (event.source == some "aws.events") = false := by
    simpa using hs
  rcases htr : tryRoutes ctx event with ⟨res, s3, calls3⟩
  rw [htr] at he
  simp only at he
  subst he
  simp [lambda_handler, hbe, htr]

/-- Witness for C4: `GET /getProduct` for an absent id raises
`KeyError('Item')` inside `get_product`, and the handler answers 500 with
the error text. -/
theorem handler_maps_exceptions_to_500_witness :
    evGetMissing.source ≠ some "aws.events" ∧
    (tryRoutes ctx0 evGetMissing).1 = .error (.keyError "Item") ∧
    (lambda_handler ctx0 evGetMissing).1 =
      { statusCode := 500,
        body := .jobj [("error", .jstr (strErr (.keyError "Item")))],
        headers := ctJson } :=
  ⟨fun h => Option.noConfusion h, rfl,
   handler_maps_exceptions_to_500 ctx0 evGetMissing (.keyError "Item")
     (fun h => Option.noConfusion h) rfl⟩

/-- C5: a synchronous event whose method+path pair is none of the five
recognized routes gets statusCode 400 with body `{"message": "Bad request"}`;
conversely, a 400 response only ever arises that way (scheduled and
recognized-route invocations produce 200, 201 or 500). -/
theorem unrecognized_route_400 :
    (∀ (ctx : HandlerCtx) (event : Event) (m p : String),
       event.source ≠ some "aws.events" →
       event.httpMethod = some m → event.path = some p →
       recognizedRoute m p = false →
       (lambda_handler ctx event).1 =
         { statusCode := 400, body := .jobj [("message", .jstr "Bad request")],
           headers := ctJson }) ∧
    (∀ (ctx : HandlerCtx) (event : Event),
       (lambda_handler ctx event).1.statusCode = 400 →
       event.source ≠ some "aws.events" ∧
       (lambda_handler ctx event).1.body =
         .jobj [("message", .jstr "Bad request")] ∧
       ∃ m p, event.httpMethod = some m ∧ event.path = some p ∧
         recognizedRoute m p = false) := by
  constructor
  · intro ctx event m p hs hm hp hrec
    have hbe : (event.source == some "aws.events") = false := by simpa using hs
    have h1 : ¬(m == "GET" && p == "/getProducts") = true := fun hc => by
      simp [recognizedRoute, hc] at hrec
    have h2 : ¬(m == "GET" && p == "/getProduct") = true := fun hc => by
      simp [recognizedRoute, hc] at hrec
    have h3 : ¬(m == "POST" && p == "/addProduct") = true := fun hc => by
      simp [recognizedRoute, hc] at hrec
    have h4 : ¬(m == "PUT" && p == "/updateProduct") = true := fun hc => by
      simp [recognizedRoute, hc] at hrec
    have h5 : ¬(m == "DELETE" && p == "/deleteProduct") = true := fun hc => by
      simp [recognizedRoute, hc] at hrec
    have htr : tryRoutes ctx event =
        (.ok { statusCode := 400,
               body := .jobj [("message", .jstr "Bad request")],
               headers := ctJson }, ctx.store, []) := by
      simp only [tryRoutes, hm, hp]
      rw [if_neg h1, if_neg h2, if_neg h3, if_neg h4, if_neg h5]
    simp [lambda_handler, hbe, htr]
  · intro ctx event h400
    by_cases hs : (event.source == some "aws.events") = true
    · exfalso
      rcases hcb : create_backup ctx.backupSvc ctx.tableName ctx.now with ⟨res, calls⟩
      cases res with
      | ok d =>
        have : (lambda_handler ctx event).1.statusCode = 200 := by
          simp [lambda_handler, hs, hcb]
        rw [this] at h400; simp at h400
      | error e =>
        have : (lambda_handler ctx event).1.statusCode = 500 := by
          simp [lambda_handler, hs, hcb]
        rw [this] at h400; simp at h400
    · have hbe : (event.source == some "aws.events") = false := by
        simpa using hs
      rcases htr : tryRoutes ctx event with ⟨res, s3, calls3⟩
      cases res with
      | error e =>
        have : (lambda_handler ctx event).1.statusCode = 500 := by
          simp [lambda_handler, hbe, htr]
        rw [this] at h400; simp at h400
      | ok r =>
        have hlh : (lambda_handler ctx event).1 = r := by
          simp [lambda_handler, hbe, htr]
        obtain ⟨hh, hcase⟩ := tryRoutes_ok_cases ctx event r s3 calls3 htr
        rw [hlh] at h400 ⊢
        rcases hcase with h200 | h201 | ⟨hst, hbody, hex⟩
        · rw [h200] at h400; simp at h400
        · rw [h201] at h400; simp at h400
        · exact ⟨by simpa using hbe, hbody, hex⟩

/-- Witness for C5: `GET /unknownPath` gets the 400 Bad request response,
and that response indeed falls in the sole-400 characterization. -/
theorem unrecognized_route_400_witness :
    evUnknown.source ≠ some "aws.events" ∧
    evUnknown.httpMethod = some "GET" ∧
    evUnknown.path = some "/unknownPath" ∧
    recognizedRoute "GET" "/unknownPath" = false ∧
    (lambda_handler ctx0 evUnknown).1 =
      { statusCode := 400, body := .jobj [("message", .jstr "Bad request")],
        headers := ctJson } ∧
    (lambda_handler ctx0 evUnknown).1.statusCode = 400 ∧
    (evUnknown.source ≠ some "aws.events" ∧
     (lambda_handler ctx0 evUnknown).1.body =
       .jobj [("message", .jstr "Bad request")] ∧
     ∃ m p, evUnknown.httpMethod = some m ∧ evUnknown.path = some p ∧
       recognizedRoute m p = false) :=
  ⟨fun h => Option.noConfusion h, rfl, rfl, rfl,
   unrecognized_route_400.1 ctx0 evUnknown "GET" "/unknownPath"
     (fun h => Option.noConfusion h) rfl rfl rfl,
   rfl,
   unrecognized_route_400.2 ctx0 evUnknown rfl⟩

/-- C8: a scheduled event makes the handler call the store's backup
operation exactly once (no retry), with name
`"product_backup_" + utcnow.strftime('%Y%m%d%H%M')` against the configured
table; on success it returns 200 with the `Backup created` message and the
backup metadata (ARN, name, status, type, ISO-8601 creation time); on
store failure it returns 500 with the error message. -/
theorem scheduled_event_backup (ctx : HandlerCtx) (event : Event)
    (hs : event.source = some "aws.events") :
    (lambda_handler ctx event).2.2 =
      [DBCall.createBackup ctx.tableName
        ("product_backup_" ++ formatYmdHM ctx.now)] ∧
    (∀ rb, ctx.backupSvc ctx.tableName
        ("product_backup_" ++ formatYmdHM ctx.now) = .ok rb →
      (lambda_handler ctx event).1 =
        { statusCode := 200,
          body := .jobj [("message", .jstr "Backup created"),
                         ("backup_details", backupDetailsToJson rb)],
          headers := ctJson }) ∧
    (∀ msg, ctx.backupSvc ctx.tableName
        ("product_backup_" ++ formatYmdHM ctx.now) = .error msg →
      (lambda_handler ctx event).1 =
        { statusCode := 500, body := .jobj [("error", .jstr msg)],
          headers := ctJson }) := by
  have hbe : (event.source == some "aws.events") = true := by simp [hs]
  refine ⟨?_, ?_, ?_⟩
  · rcases hsvc : ctx.backupSvc ctx.tableName
        ("product_backup_" ++ formatYmdHM ctx.now) with msg | rb <;>
      simp [lambda_handler, hbe, create_backup, hsvc]
  · intro rb hsvc
    simp [lambda_handler, hbe, create_backup, hsvc]
  · intro msg hsvc
    simp [lambda_handler, hbe, create_backup, hsvc, strErr]

/-- Witness for C8 at a concrete context: success path through `svc0` and
failure path through `svcFail`. -/
theorem scheduled_event_backup_witness :
    evScheduled.source = some "aws.events" ∧
    (lambda_handler ctx0 evScheduled).2.2 =
      [DBCall.createBackup "Product"
        ("product_backup_" ++ formatYmdHM time0)] ∧
    ctx0.backupSvc ctx0.tableName ("product_backup_" ++ formatYmdHM ctx0.now) =
      .ok { backupArn := "arn:aws:dynamodb:us-east-1:123456789012:table/Product/backup/015",
            backupName := "product_backup_" ++ formatYmdHM time0,
            backupStatus := "CREATING", backupType := "USER",
            backupCreationDateTime := time0 } ∧
    (lambda_handler ctx0 evScheduled).1 =
      { statusCode := 200,
        body := .jobj [("message", .jstr "Backup created"),
                       ("backup_details", backupDetailsToJson
                         { backupArn := "arn:aws:dynamodb:us-east-1:123456789012:table/Product/backup/015",
                           backupName := "product_backup_" ++ formatYmdHM time0,
                           backupStatus := "CREATING", backupType := "USER",
                           backupCreationDateTime := time0 })],
        headers := ctJson } ∧
    (lambda_handler ctxFail evScheduled).1 =
      { statusCode := 500,
        body := .jobj [("error", .jstr "An error occurred (TableNotFoundException) when calling the CreateBackup operation")],
        headers := ctJson } :=
  ⟨rfl,
   (scheduled_event_backup ctx0 evScheduled rfl).1,
   rfl,
   (scheduled_event_backup ctx0 evScheduled rfl).2.1
     { backupArn := "arn:aws:dynamodb:us-east-1:123456789012:table/Product/backup/015",
       backupName := "product_backup_" ++ formatYmdHM time0,
       backupStatus := "CREATING", backupType := "USER",
       backupCreationDateTime := time0 } rfl,
   (scheduled_event_backup ctxFail evScheduled rfl).2.2
     "An error occurred (TableNotFoundException) when calling the CreateBackup operation" rfl⟩

/-- C9: on `GET /getProducts` the router calls `get_products()` with the
Python defaults — one scan with `Limit=100` and no `ExclusiveStartKey` —
regardless of the event's query parameters, and answers 200 with the scan
result; the HTTP caller can never drive pagination resumption. -/
theorem getProducts_ignores_query_params (ctx : HandlerCtx) (event : Event)
    (hs : event.source ≠ some "aws.events")
    (hm : event.httpMethod = some "GET")
    (hp : event.path = some "/getProducts") :
    (lambda_handler ctx event).2.2 = [DBCall.scan 100 none] ∧
    (lambda_handler ctx event).1 =
      { statusCode := 200,
        body := scanResultToJson (dynamo_scan ctx.store 100 none),
        headers := ctJson } := by
  have hbe : (event.source == some "aws.events") = false := by simpa using hs
  have htr : tryRoutes ctx event =
      (.ok { statusCode := 200,
             body := scanResultToJson (dynamo_scan ctx.store 100 none),
             headers := ctJson }, ctx.store, [DBCall.scan 100 none]) := by
    simp [tryRoutes, hm, hp, get_products]
  constructor <;> simp [lambda_handler, hbe, htr]

/-- Witness for C9: a `GET /getProducts` event carrying query parameters
(`limit=5`, `startKey=p9`) still yields exactly one `scan 100 none`. -/
theorem getProducts_ignores_query_params_witness :
    evGetProducts.source ≠ some "aws.events" ∧
    evGetProducts.queryStringParameters = some [("limit", "5"), ("startKey", "p9")] ∧
    (lambda_handler ctx1 evGetProducts).2.2 = [DBCall.scan 100 none] ∧
    (lambda_handler ctx1 evGetProducts).1 =
      { statusCode := 200,
        body := scanResultToJson (dynamo_scan [item0] 100 none),
        headers := ctJson } :=
  ⟨fun h => Option.noConfusion h, rfl,
   (getProducts_ignores_query_params ctx1 evGetProducts
      (fun h => Option.noConfusion h) rfl rfl).1,
   (getProducts_ignores_query_params ctx1 evGetProducts
      (fun h => Option.noConfusion h) rfl rfl).2⟩

/-- C10: every response of the handler — scheduled or synchronous, success
or failure — has statusCode 200, 201, 400 or 500 and the JSON content-type
header (its body is by construction the JSON value handed to
`json.dumps`). -/
theorem handler_response_envelope (ctx : HandlerCtx) (event : Event) :
    ((lambda_handler ctx event).1.statusCode = 200 ∨
     (lambda_handler ctx event).1.statusCode = 201 ∨
     (lambda_handler ctx event).1.statusCode = 400 ∨
     (lambda_handler ctx event).1.statusCode = 500) ∧
    (lambda_handler ctx event).1.headers = ctJson := by
  by_cases hs : (event.source == some "aws.events") = true
  · rcases hcb : create_backup ctx.backupSvc ctx.tableName ctx.now with ⟨res, calls⟩
    cases res with
    | ok d =>
      have hl : (lambda_handler ctx event).1 =
          { statusCode := 200,
            body := .jobj [("message", .jstr "Backup created"),
                           ("backup_details", d)],
            headers := ctJson } := by
        simp [lambda_handler, hs, hcb]
      rw [hl]; exact ⟨Or.inl rfl, rfl⟩
    | error e =>
      have hl : (lambda_handler ctx event).1 =
          { statusCode := 500, body := .jobj [("error", .jstr (strErr e))],
            headers := ctJson } := by
        simp [lambda_handler, hs, hcb]
      rw [hl]; exact ⟨Or.inr (Or.inr (Or.inr rfl)), rfl⟩
  · have hbe : (event.source == some "aws.events") = false := by simpa using hs
    rcases htr : tryRoutes ctx event with ⟨res, s3, calls3⟩
    cases res with
    | error e =>
      have hl : (lambda_handler ctx event).1 =
          { statusCode := 500, body := .jobj [("error", .jstr (strErr e))],
            headers := ctJson } := by
        simp [lambda_handler, hbe, htr]
      rw [hl]; exact ⟨Or.inr (Or.inr (Or.inr rfl)), rfl⟩
    | ok r =>
      have hlh : (lambda_handler ctx event).1 = r := by
        simp [lambda_handler, hbe, htr]
      obtain ⟨hh, hcase⟩ := tryRoutes_ok_cases ctx event r s3 calls3 htr
      rw [hlh]
      refine ⟨?_, hh⟩
      rcases hcase with h | h | ⟨h, _, _⟩
      · exact Or.inl h
      · exact Or.inr (Or.inl h)
      · exact Or.inr (Or.inr (Or.inl h))
